import Mathlib

/-!
Shallow embedding of the Assignment5 RPC framework (C++ sources under
`src/`): the `Connection` transport layer (`rpc_connection.cpp`), the
framing codec, and the server dispatch path (`rpc_server_stub.cpp`).

Transport calls (`send`, `recv`) are modelled by an explicit schedule of
events: each loop iteration of `send_data` / `receive_data` consumes one
event that says what the underlying call returned (a chunk of bytes, an
EINTR interruption, end-of-stream, or an errno failure).  The incoming
byte stream is an explicit list of bytes (`Nat`, each intended < 256).
-/

namespace RpcConn

/-- Outcome of one underlying `send(2)` call: accepts up to `k` bytes,
is interrupted (`errno == EINTR`), or fails with `strerror(errno) = e`. -/
inductive SendEv
  | accept (k : Nat)
  | eintr
  | err (e : String)
deriving DecidableEq, Repr

/-- Outcome of one underlying `recv(2)` call: delivers up to `k` bytes
from the stream, is interrupted, signals end-of-stream (returns 0), or
fails with `strerror(errno) = e`. -/
inductive RecvEv
  | chunk (k : Nat)
  | eintr
  | eof
  | err (e : String)
deriving DecidableEq, Repr

/-- Result of an I/O operation: success, a thrown `ConnectionError` with
its message, or the loop ran out of scheduled transport events (models
blocking forever on the real socket). -/
inductive IoResult (α : Type)
  | ok (v : α)
  | connError (msg : String)
  | blocked
deriving DecidableEq, Repr

/-- State of `rpc_connection::Connection`: the socket descriptor `fd` and
the `open` member (named `openFlag` because `open` is a Lean keyword). -/
structure Connection where
  fd : Int
  openFlag : Bool
deriving DecidableEq, Repr

/-- Constructor `Connection::Connection(int socket_fd)`: initialises
`fd(socket_fd), open(socket_fd >= 0)`. -/
def Connection.create (socket_fd : Int) : Connection :=
  { fd := socket_fd, openFlag := decide (0 ≤ socket_fd) }

/-- Accessor `Connection::is_open`. -/
def is_open (c : Connection) : Bool :=
  c.openFlag

/-- Output of `send_data`: the result, the final connection state, the
bytes actually handed to the transport (in order), and the unconsumed
tail of the event schedule. -/
structure SendOut where
  result : IoResult Unit
  conn : Connection
  trace : List Nat
  sched : List SendEv
deriving DecidableEq, Repr

/-- Output of `receive_data` / `receive_length_prefix`: the result, the
final connection state, the not-yet-consumed tail of the incoming byte
stream, and the unconsumed tail of the event schedule. -/
structure RecvOut where
  result : IoResult (List Nat)
  conn : Connection
  stream : List Nat
  sched : List RecvEv
deriving DecidableEq, Repr

/-- Like `RecvOut` but the result carries the decoded 32-bit length. -/
structure LenOut where
  result : IoResult Nat
  conn : Connection
  stream : List Nat
  sched : List RecvEv
deriving DecidableEq, Repr

/-- The `while (total_sent < data.size())` loop of `Connection::send_data`
(rpc_connection.cpp lines 76-85).  `remaining` is the unsent suffix of
`data`; each iteration consumes one schedule event: `send` returning a
non-negative count advances, `EINTR` retries, any other negative return
sets `open = false` and throws `ConnectionError("Send error: " + strerror)`. -/
def sendLoop (c : Connection) (remaining : List Nat) (sched : List SendEv)
    (trace : List Nat) : SendOut :=
  if remaining.isEmpty then ⟨.ok (), c, trace, sched⟩
  else
    match sched with
    | [] => ⟨.blocked, c, trace, []⟩
    | .accept k :: rest =>
        let sent := min k remaining.length
        sendLoop c (remaining.drop sent) rest (trace ++ remaining.take sent)
    | .eintr :: rest => sendLoop c remaining rest trace
    | .err e :: rest =>
        ⟨.connError ("Send error: " ++ e), { c with openFlag := false }, trace, rest⟩

/-- Method `Connection::send_data` (rpc_connection.cpp lines 73-86): throws
`ConnectionError("Connection is closed")` without touching the transport
when `open` is false, otherwise runs the send loop. -/
def send_data (c : Connection) (data : List Nat) (sched : List SendEv) : SendOut :=
  if !c.openFlag then ⟨.connError "Connection is closed", c, [], sched⟩
  else sendLoop c data sched []

/-- The `while (total_received < num_bytes)` loop of
`Connection::receive_data` (rpc_connection.cpp lines 109-121).  A `recv`
return of 0 (a `chunk` finding no bytes, or `eof`) closes the connection
with `ConnectionError("Connection closed by peer")`; `EINTR` retries; any
other failure closes it with `ConnectionError("Receive error: " + strerror)`. -/
def recvLoop (c : Connection) (stream : List Nat) (sched : List RecvEv)
    (acc : List Nat) (need : Nat) : RecvOut :=
  if need = 0 then ⟨.ok acc, c, stream, sched⟩
  else
    match sched with
    | [] => ⟨.blocked, c, stream, []⟩
    | .chunk k :: rest =>
        let got := min (min k need) stream.length
        if got = 0 then
          ⟨.connError "Connection closed by peer", { c with openFlag := false }, stream, rest⟩
        else
          recvLoop c (stream.drop got) rest (acc ++ stream.take got) (need - got)
    | .eintr :: rest => recvLoop c stream rest acc need
    | .eof :: rest =>
        ⟨.connError "Connection closed by peer", { c with openFlag := false }, stream, rest⟩
    | .err e :: rest =>
        ⟨.connError ("Receive error: " ++ e), { c with openFlag := false }, stream, rest⟩

/-- Method `Connection::receive_data` (rpc_connection.cpp lines 104-123). -/
def receive_data (c : Connection) (stream : List Nat) (sched : List RecvEv)
    (num_bytes : Nat) : RecvOut :=
  if !c.openFlag then ⟨.connError "Connection is closed", c, stream, sched⟩
  else recvLoop c stream sched [] num_bytes

/-- Big-endian interpretation of a byte list; on 4 bytes this is exactly
`memcpy` into a `uint32_t` followed by `ntohl` (rpc_connection.cpp
lines 137-139). -/
def beDecode (bytes : List Nat) : Nat :=
  bytes.foldl (fun a b => a * 256 + b) 0

/-- Method `Connection::receive_length_prefix` (rpc_connection.cpp lines
135-140): `receive_data(4)` then big-endian decode. -/
def receive_length_prefix (c : Connection) (stream : List Nat)
    (sched : List RecvEv) : LenOut :=
  let r := receive_data c stream sched 4
  match r.result with
  | .ok bytes => ⟨.ok (beDecode bytes), r.conn, r.stream, r.sched⟩
  | .connError m => ⟨.connError m, r.conn, r.stream, r.sched⟩
  | .blocked => ⟨.blocked, r.conn, r.stream, r.sched⟩

/-- Method `Connection::close_connection` (rpc_connection.cpp lines 152-159):
returns the new state and whether the underlying handle was released
(`close(fd)` called).  If already closed it returns immediately. -/
def close_connection (c : Connection) : Connection × Bool :=
  if !c.openFlag then (c, false)
  else ({ fd := -1, openFlag := false }, true)

/-- Destructor `Connection::~Connection` (rpc_connection.cpp lines 23-28): closes
only if still open.  Returns the final state and whether a handle was
released. -/
def destructor (c : Connection) : Connection × Bool :=
  if c.openFlag then close_connection c else (c, false)

/-- One abstract operation on a connection, bundling the transport
environment (stream / schedule) the operation runs against. -/
inductive Op
  | send (data : List Nat) (sched : List SendEv)
  | recv (n : Nat) (stream : List Nat) (sched : List RecvEv)
  | recvLen (stream : List Nat) (sched : List RecvEv)
  | close

/-- Execute one operation; the `Bool` says whether the underlying handle
was released during this step. -/
def step (c : Connection) (op : Op) : Connection × Bool :=
  match op with
  | .send data sched => ((send_data c data sched).conn, false)
  | .recv n stream sched => ((receive_data c stream sched n).conn, false)
  | .recvLen stream sched => (( receive_length_prefix c stream sched).conn, false)
  | .close => close_connection c

/-- Execute a sequence of operations, counting handle releases. -/
def runOps (c : Connection) : List Op → Connection × Nat
  | [] => (c, 0)
  | op :: ops =>
      let s := step c op
      let r := runOps s.1 ops
      (r.1, (if s.2 then 1 else 0) + r.2)

end RpcConn

namespace RpcServer

open RpcConn

/-- JSON values as produced by the external jsoncpp library
(`Json::Value`), restricted to the shapes the protocol uses; numbers are
modelled as integers. -/
inductive Json
  | null
  | bool (b : Bool)
  | num (n : Int)
  | str (s : String)
  | arr (elts : List Json)
  | obj (members : List (String × Json))

/-- Member test `Json::Value::isMember` (via `Json::Value::find`): defined only for
object or null values; on any other type jsoncpp's `JSON_ASSERT_MESSAGE`
throws a `Json::LogicError`, modelled as `.error` with the assertion
message. -/
def isMember (v : Json) (key : String) : Except String Bool :=
  match v with
  | .null => .ok false
  | .obj members => .ok (members.any (fun kv => kv.1 == key))
  | _ => .error "in Json::Value::find(begin, end): requires objectValue or nullValue"

/-- Lookup `Json::Value::operator[](const char*)` as used on an object after the
membership checks succeeded: the bound value, or null when absent. -/
def getMember (v : Json) (key : String) : Json :=
  match v with
  | .obj members =>
      match members.find? (fun kv => kv.1 == key) with
      | some kv => kv.2
      | none => .null
  | _ => .null

/-- Conversion `Json::Value::asString`: converts null/string/bool/int; on arrays and
objects jsoncpp throws (`JSON_FAIL_MESSAGE`), modelled as `.error`. -/
def asString (v : Json) : Except String String :=
  match v with
  | .null => .ok ""
  | .str s => .ok s
  | .bool b => .ok (if b then "true" else "false")
  | .num n => .ok (toString n)
  | _ => .error "Type is not convertible to string"

/-- An `RPCFunction` (`std::function<Json::Value(const Json::Value&)>`):
a handler either returns a value or throws an exception whose `what()`
message is the `.error` string. -/
abbrev RPCFunction : Type := Json → Except String Json

/-- The `function_registry` member: `std::map<std::string, RPCFunction>`,
modelled as an association list with unique keys. -/
abbrev Registry : Type := List (String × RPCFunction)

/-- Lookup test `function_registry.count(name)` used as a boolean. -/
def regContains (reg : Registry) (k : String) : Bool :=
  (reg.find? (fun kv => kv.1 == k)).isSome

/-- Calling an empty (default-constructed) `std::function` throws
`std::bad_function_call`. -/
def defaultHandler : RPCFunction :=
  fun _ => .error "bad_function_call"

/-- Lookup `std::map::operator[]` (rpc_server_stub.cpp line 219): returns the
mapped handler, default-inserting an empty `std::function` when the key
is absent. -/
def mapIndex (reg : Registry) (k : String) : RPCFunction × Registry :=
  match reg.find? (fun kv => kv.1 == k) with
  | some kv => (kv.2, reg)
  | none => (defaultHandler, reg ++ [(k, defaultHandler)])

/-- The error response object built by `process_json_request`:
`error["status"] = "error"; error["message"] = msg`. -/
def errorResponse (msg : String) : Json :=
  .obj [("status", .str "error"), ("message", .str msg)]

/-- The success response object built by `process_json_request`:
`response["status"] = "success"; response["result"] = result`. -/
def successResponse (result : Json) : Json :=
  .obj [("status", .str "success"), ("result", result)]

/-- Dispatch `RPCServer::process_json_request` (rpc_server_stub.cpp lines
191-235) up to response serialization.  The input is the result of the
external `Json::parseFromStream` call on the request bytes (`.error`
carries the parser diagnostic).  The overall `.error` case models a C++
exception escaping `process_json_request` (no response is produced); the
`.ok` case carries the response JSON and the registry after the call. -/
def process_json_core (reg : Registry) (parse : Except String Json) :
    Except String (Json × Registry) :=
  match parse with
  | .error errs => .ok (errorResponse ("Invalid JSON: " ++ errs), reg)
  | .ok root =>
    match isMember root "function" with
    | .error e => .error e
    | .ok hasFunc =>
      if !hasFunc then .ok (errorResponse "Missing 'function' or 'args' field", reg)
      else
        match isMember root "args" with
        | .error e => .error e
        | .ok hasArgs =>
          if !hasArgs then .ok (errorResponse "Missing 'function' or 'args' field", reg)
          else
            match asString (getMember root "function") with
            | .error e => .error e
            | .ok func_name =>
              let args := getMember root "args"
              if !regContains reg func_name then
                .ok (errorResponse "Function not found", reg)
              else
                let fr := mapIndex reg func_name
                match fr.1 args with
                | .ok result => .ok (successResponse result, fr.2)
                | .error e =>
                    .ok (errorResponse ("Execution error: " ++ e), fr.2)

/-- Minimal JSON writer. Modelled from the spec: the response writer is
the external jsoncpp serializer and the `serialize_response` helper it
feeds is not defined under `src/`; per the spec the payload is the UTF-8
JSON text of the response value. -/
def jsonWrite : Json → String
  | .null => "null"
  | .bool b => if b then "true" else "false"
  | .num n => toString n
  | .str s => "\x22" ++ s ++ "\x22"
  | .arr elts =>
      "[" ++ String.intercalate "," (elts.attach.map (fun e => jsonWrite e.1)) ++ "]"
  | .obj members =>
      "\x7b" ++
        String.intercalate ","
          (members.attach.map
            (fun kv => "\x22" ++ kv.1.1 ++ "\x22:" ++ jsonWrite kv.1.2)) ++
      "\x7d"
termination_by v => sizeOf v
decreasing_by
  · have h := List.sizeOf_lt_of_mem e.2
    simp only [Json.arr.sizeOf_spec]
    omega
  · have h := List.sizeOf_lt_of_mem kv.2
    obtain ⟨⟨k, v⟩, hm⟩ := kv
    simp only [Prod.mk.sizeOf_spec] at h
    simp only [Json.obj.sizeOf_spec]
    omega

/-- Big-endian 4-byte encoding of a 32-bit value (`htonl` written to the
wire). -/
def be32 (n : Nat) : List Nat :=
  [n / 2 ^ 24 % 256, n / 2 ^ 16 % 256, n / 2 ^ 8 % 256, n % 256]

/-- Modelled from the spec: `serialize_response` is called by
`process_json_request` but its definition is not under `src/`; per the
wire format (spec section 6 and the step-8 comment in
rpc_server_stub.cpp) it serializes the response JSON and prepends the
4-byte big-endian length of the payload. -/
def serialize_response (v : Json) : List Nat :=
  let payload := (jsonWrite v).data.map Char.toNat
  be32 (payload.length % 2 ^ 32) ++ payload

/-- Dispatch `RPCServer::process_json_request` including serialization: `.ok`
carries the framed response bytes and the registry after the call;
`.error` models an exception escaping the dispatch boundary. -/
def process_json_request (reg : Registry) (parse : Except String Json) :
    Except String (List Nat × Registry) :=
  match process_json_core reg parse with
  | .ok pr => .ok (serialize_response pr.1, pr.2)
  | .error e => .error e

/-- The registry after a `process_json_request` call (unchanged when an
exception escapes, since no code path that throws touches the map). -/
def registryAfter (reg : Registry) (parse : Except String Json) : Registry :=
  match process_json_core reg parse with
  | .ok pr => pr.2
  | .error _ => reg

/-- State of `RPCServer`: the members that registration and dispatch
touch. -/
structure RPCServer where
  port : Int
  listen_fd : Int
  running : Bool
  function_registry : Registry

/-- Method `RPCServer::register_function` (rpc_server_stub.cpp lines 45-53):
throws while `running`; warns and keeps the existing handler on a
duplicate name; otherwise inserts.  The `Bool` reports whether the
duplicate-name warning was printed. -/
def register_function (s : RPCServer) (name : String) (func : RPCFunction) :
    Except String (RPCServer × Bool) :=
  if s.running then .error "Cannot register functions while server is running"
  else if regContains s.function_registry name then .ok (s, true)
  else .ok ({ s with function_registry := s.function_registry ++ [(name, func)] }, false)

/-- Method `RPCServer::stop` (rpc_server_stub.cpp lines 104-110), restricted to
the state we model: clears the running flag. -/
def stop (s : RPCServer) : RPCServer :=
  if !s.running then s else { s with running := false, listen_fd := -1 }

/-- Sample handler bound first to the name `"f"`. -/
def c6_handler_one : RPCFunction := fun _ => .ok (.num 1)

/-- Sample handler registered later under the same name `"f"`. -/
def c6_handler_two : RPCFunction := fun _ => .ok (.num 2)

/-- A server that is not yet listening and already has `"f"` registered. -/
def c6_server : RPCServer :=
  { port := 8080, listen_fd := -1, running := false,
    function_registry := [("f", c6_handler_one)] }

/-- The request `{"function":"f","args":[]}`. -/
def c6_request : Json :=
  .obj [("function", .str "f"), ("args", .arr [])]

/-- The response value dispatch builds from a handler outcome: success
wraps the returned value, a handler failure becomes the execution-error
response. -/
def handlerResponse (r : Except String Json) : Json :=
  match r with
  | .ok result => successResponse result
  | .error e => errorResponse ("Execution error: " ++ e)

/-- A handler whose registered name is duplicated in `c7_server`. -/
def c7_handler_old : RPCFunction := fun _ => .ok (.str "old")

/-- The handler offered in the duplicate registration. -/
def c7_handler_new : RPCFunction := fun _ => .ok (.str "new")

/-- A not-yet-listening server with `"g"` registered. -/
def c7_server : RPCServer :=
  { port := 9090, listen_fd := -1, running := false,
    function_registry := [("g", c7_handler_old)] }

/-- A handler that always fails, like `divide` on a zero denominator. -/
def failing_handler : RPCFunction := fun _ => .error "Division by zero"

/-- A handler that returns its argument array, like `echo`. -/
def echo_handler : RPCFunction := fun a => .ok a

end RpcServer

namespace RpcConn

/-- A send event that makes progress without failing: a positive accepted
count, or an EINTR interruption. -/
def goodSendEv : SendEv → Bool
  | .accept k => decide (1 ≤ k)
  | .eintr => true
  | .err _ => false

/-- All events in the schedule make progress without failing. -/
def goodSend (sched : List SendEv) : Bool :=
  sched.all goodSendEv

def isAccept : SendEv → Bool
  | .accept _ => true
  | _ => false

/-- Number of byte-accepting events in a send schedule. -/
def countAccepts (sched : List SendEv) : Nat :=
  (sched.filter isAccept).length

/-- A recv event that makes progress without failing: a positive chunk,
or an EINTR interruption. -/
def goodRecvEv : RecvEv → Bool
  | .chunk k => decide (1 ≤ k)
  | .eintr => true
  | .eof => false
  | .err _ => false

/-- All events in the schedule make progress without failing. -/
def goodRecv (sched : List RecvEv) : Bool :=
  sched.all goodRecvEv

def isChunk : RecvEv → Bool
  | .chunk _ => true
  | _ => false

/-- Number of byte-delivering events in a recv schedule. -/
def countChunks (sched : List RecvEv) : Nat :=
  (sched.filter isChunk).length

/-- The send loop transmits the whole remaining buffer, in order, when
every scheduled transport call either accepts at least one byte or is an
EINTR interruption, and there are at least as many accepting calls as
bytes left. -/
theorem sendLoop_ok (c : Connection) :
    ∀ (sched : List SendEv) (remaining trace : List Nat),
      goodSend sched = true → remaining.length ≤ countAccepts sched →
      ∃ rest, sendLoop c remaining sched trace = ⟨.ok (), c, trace ++ remaining, rest⟩ := by
  intro sched
  induction sched with
  | nil =>
    intro remaining trace _ hlen
    have hz : remaining.length = 0 := by simpa [countAccepts] using hlen
    have : remaining = [] := List.eq_nil_of_length_eq_zero hz
    subst this
    exact ⟨[], by simp [sendLoop]⟩
  | cons ev rest ih =>
    intro remaining trace hgood hlen
    have hgev : goodSendEv ev = true ∧ goodSend rest = true := by
      simpa [goodSend, Bool.and_eq_true] using hgood
    match remaining with
    | [] => exact ⟨ev :: rest, by rw [sendLoop.eq_def]; simp⟩
    | x :: xs =>
      cases ev with
      | accept k =>
        have hk : 1 ≤ k := by simpa [goodSendEv] using hgev.1
        have hcnt : countAccepts (SendEv.accept k :: rest) = countAccepts rest + 1 := by
          simp [countAccepts, isAccept, List.filter]
        have hsent : 1 ≤ min k (x :: xs).length := by
          simp [Nat.le_min]
          omega
        have hlen2 : ((x :: xs).drop (min k (x :: xs).length)).length ≤ countAccepts rest := by
          rw [List.length_drop]
          rw [hcnt] at hlen
          omega
        obtain ⟨r, hr⟩ := ih ((x :: xs).drop (min k (x :: xs).length))
          (trace ++ (x :: xs).take (min k (x :: xs).length)) hgev.2 hlen2
        refine ⟨r, ?_⟩
        rw [sendLoop]
        simp only [List.isEmpty_cons]
        rw [hr, List.append_assoc, List.take_append_drop]
        simp
      | eintr =>
        have hlen2 : (x :: xs).length ≤ countAccepts rest := by
          simpa [countAccepts, isAccept, List.filter] using hlen
        obtain ⟨r, hr⟩ := ih (x :: xs) trace hgev.2 hlen2
        refine ⟨r, ?_⟩
        rw [sendLoop]
        simpa using hr
      | err e => simp [goodSendEv] at hgev

/-- The receive loop delivers exactly the next `need` bytes of the stream
when every scheduled transport call delivers at least one byte or is an
EINTR interruption, there are at least `need` delivering calls, and the
stream holds at least `need` bytes. -/
theorem recvLoop_ok (c : Connection) :
    ∀ (sched : List RecvEv) (stream acc : List Nat) (need : Nat),
      goodRecv sched = true → need ≤ countChunks sched → need ≤ stream.length →
      ∃ rest, recvLoop c stream sched acc need =
        ⟨.ok (acc ++ stream.take need), c, stream.drop need, rest⟩ := by
  intro sched
  induction sched with
  | nil =>
    intro stream acc need _ hcnt _
    have hz : need = 0 := by simpa [countChunks] using hcnt
    subst hz
    exact ⟨[], by simp [recvLoop]⟩
  | cons ev rest ih =>
    intro stream acc need hgood hcnt hstream
    have hgev : goodRecvEv ev = true ∧ goodRecv rest = true := by
      simpa [goodRecv, Bool.and_eq_true] using hgood
    match need with
    | 0 => exact ⟨ev :: rest, by rw [recvLoop.eq_def]; simp⟩
    | n + 1 =>
      cases ev with
      | chunk k =>
        have hk : 1 ≤ k := by simpa [goodRecvEv] using hgev.1
        have hccnt : countChunks (RecvEv.chunk k :: rest) = countChunks rest + 1 := by
          simp [countChunks, isChunk, List.filter]
        have hgot1 : 1 ≤ min (min k (n + 1)) stream.length := by
          simp [Nat.le_min]
          omega
        have hgotle : min (min k (n + 1)) stream.length ≤ n + 1 := by omega
        have hlen2 : n + 1 - min (min k (n + 1)) stream.length ≤ countChunks rest := by
          rw [hccnt] at hcnt
          omega
        have hstr2 : n + 1 - min (min k (n + 1)) stream.length ≤
            (stream.drop (min (min k (n + 1)) stream.length)).length := by
          rw [List.length_drop]
          omega
        have hsum : min (min k (n + 1)) stream.length +
            (n + 1 - min (min k (n + 1)) stream.length) = n + 1 := by omega
        have hne : ¬ min (min k (n + 1)) stream.length = 0 := by omega
        obtain ⟨r, hr⟩ := ih (stream.drop (min (min k (n + 1)) stream.length))
          (acc ++ stream.take (min (min k (n + 1)) stream.length))
          (n + 1 - min (min k (n + 1)) stream.length) hgev.2 hlen2 hstr2
        refine ⟨r, ?_⟩
        rw [recvLoop]
        simp only [Nat.succ_ne_zero, if_false, hne, if_neg, ite_false]
        rw [hr, List.append_assoc, ← List.take_add, List.drop_drop, hsum]
      | eintr =>
        have hlen2 : n + 1 ≤ countChunks rest := by
          simpa [countChunks, isChunk, List.filter] using hcnt
        obtain ⟨r, hr⟩ := ih stream acc (n + 1) hgev.2 hlen2 hstream
        refine ⟨r, ?_⟩
        rw [recvLoop]
        simpa using hr
      | eof => simp [goodRecvEv] at hgev
      | err e => simp [goodRecvEv] at hgev

end RpcConn

namespace RpcConn

/-- When the schedule delivers fewer bytes than requested (one byte per
chunk) and then signals end-of-stream, the receive loop fails with the
peer-closed error and closes the connection. -/
theorem recvLoop_eof (c : Connection) :
    ∀ (pre : List RecvEv) (rest : List RecvEv) (stream acc : List Nat) (need : Nat),
      pre.all (fun ev => ev == RecvEv.chunk 1 || ev == RecvEv.eintr) = true →
      countChunks pre < need → countChunks pre ≤ stream.length →
      recvLoop c stream (pre ++ .eof :: rest) acc need =
        ⟨.connError "Connection closed by peer", { c with openFlag := false },
         stream.drop (countChunks pre), rest⟩ := by
  intro pre
  induction pre with
  | nil =>
    intro rest stream acc need _ hlt _
    have hne : ¬ need = 0 := by
      simp [countChunks] at hlt
      omega
    rw [recvLoop.eq_def]
    simp [hne, countChunks]
  | cons ev pre ih =>
    intro rest stream acc need hall hlt hstream
    have hev : (ev == RecvEv.chunk 1 || ev == RecvEv.eintr) = true ∧
        pre.all (fun ev => ev == RecvEv.chunk 1 || ev == RecvEv.eintr) = true := by
      simpa [Bool.and_eq_true] using hall
    rcases Bool.or_eq_true_iff.mp hev.1 with h1 | h1
    · have hev1 : ev = RecvEv.chunk 1 := by simpa using h1
      subst hev1
      have hcc : countChunks (RecvEv.chunk 1 :: pre) = countChunks pre + 1 := by
        simp [countChunks, isChunk, List.filter]
      rw [hcc] at hlt hstream
      have hne : ¬ need = 0 := by omega
      obtain ⟨b, stream', hstr⟩ : ∃ b stream', stream = b :: stream' := by
        cases stream with
        | nil => simp at hstream
        | cons b s => exact ⟨b, s, rfl⟩
      subst hstr
      rw [recvLoop.eq_def]
      simp only [hne, if_false, ite_false, if_neg, List.cons_append]
      have hgot : min (min 1 need) (b :: stream').length = 1 := by
        simp [List.length_cons]
        omega
      rw [hgot]
      simp only [Nat.one_ne_zero, if_false, ite_false, if_neg]
      have := ih rest stream' (acc ++ [b]) (need - 1) hev.2 (by omega) (by simpa using hstream)
      simpa [hcc] using this
    · have hev1 : ev = RecvEv.eintr := by simpa using h1
      subst hev1
      have hcc : countChunks (RecvEv.eintr :: pre) = countChunks pre := by
        simp [countChunks, isChunk, List.filter]
      rw [hcc] at hlt hstream
      have hne : ¬ need = 0 := by omega
      rw [recvLoop.eq_def]
      simp only [hne, if_false, ite_false, if_neg, List.cons_append]
      have := ih rest stream acc need hev.2 hlt hstream
      simpa [hcc] using this

/-- A closed connection refuses `send_data` without touching the
transport or the state. -/
theorem send_data_closed (c : Connection) (h : c.openFlag = false)
    (data : List Nat) (sched : List SendEv) :
    send_data c data sched = ⟨.connError "Connection is closed", c, [], sched⟩ := by
  simp [send_data, h]

/-- A closed connection refuses `receive_data` without touching the
transport or the state. -/
theorem receive_data_closed (c : Connection) (h : c.openFlag = false)
    (stream : List Nat) (sched : List RecvEv) (n : Nat) :
    receive_data c stream sched n = ⟨.connError "Connection is closed", c, stream, sched⟩ := by
  simp [receive_data, h]

/-- A closed connection refuses `receive_length_prefix` without touching
the transport or the state. -/
theorem receive_length_prefix_closed (c : Connection) (h : c.openFlag = false)
    (stream : List Nat) (sched : List RecvEv) :
    receive_length_prefix c stream sched =
      ⟨.connError "Connection is closed", c, stream, sched⟩ := by
  simp [ receive_length_prefix, receive_data, h]

/-- Closing an already-closed connection is a no-op and releases
nothing. -/
theorem close_connection_closed (c : Connection) (h : c.openFlag = false) :
    close_connection c = (c, false) := by
  simp [close_connection, h]

/-- Every operation on a closed connection leaves it untouched and
releases no handle. -/
theorem step_closed (c : Connection) (h : c.openFlag = false) (op : Op) :
    step c op = (c, false) := by
  cases op with
  | send data sched => simp [step, send_data_closed c h]
  | recv n stream sched => simp [step, receive_data_closed c h]
  | recvLen stream sched => simp [step, receive_length_prefix_closed c h]
  | close => simp [step, close_connection_closed c h]

/-- Any sequence of operations on a closed connection leaves it closed
and releases no handle. -/
theorem runOps_closed (c : Connection) (h : c.openFlag = false) :
    ∀ ops : List Op, runOps c ops = (c, 0) := by
  intro ops
  induction ops with
  | nil => rfl
  | cons op ops ih => simp [runOps, step_closed c h, ih]

/-- A step that releases the handle leaves the connection closed. -/
theorem step_release_closes (c : Connection) (op : Op)
    (h : (step c op).2 = true) : (step c op).1.openFlag = false := by
  cases op with
  | send data sched => simp [step] at h
  | recv n stream sched => simp [step] at h
  | recvLen stream sched => simp [step] at h
  | close =>
    cases hob : c.openFlag with
    | false => simp [step, close_connection, hob] at h
    | true => simp [step, close_connection, hob]

/-- A sequence of operations releases the underlying handle at most
once. -/
theorem runOps_release_le_one : ∀ (ops : List Op) (c : Connection),
    (runOps c ops).2 ≤ 1 := by
  intro ops
  induction ops with
  | nil => intro c; simp [runOps]
  | cons op ops ih =>
    intro c
    by_cases hrel : (step c op).2 = true
    · have hclosed := step_release_closes c op hrel
      simp [runOps, hrel, runOps_closed (step c op).1 hclosed ops]
    · have : (step c op).2 = false := by simpa using hrel
      simp [runOps, this]
      exact ih (step c op).1

end RpcConn

namespace RpcServer

/-- When the key is present, `std::map::operator[]` does not modify the
map (the default-insertion path is not taken). -/
theorem mapIndex_snd (reg : Registry) (k : String)
    (h : regContains reg k = true) : (mapIndex reg k).2 = reg := by
  unfold mapIndex
  unfold regContains at h
  cases hf : reg.find? (fun kv => kv.1 == k) with
  | some kv => simp
  | none => rw [hf] at h; simp at h

/-- Dispatch never modifies the function registry, whatever
the parse result and whether or not the requested function exists. -/
theorem process_json_core_registry (reg : Registry) (parse : Except String Json) :
    registryAfter reg parse = reg := by
  unfold registryAfter process_json_core
  cases parse with
  | error errs => rfl
  | ok root =>
    cases hm : isMember root "function" with
    | error e => simp [hm]
    | ok hasFunc =>
      cases hasFunc with
      | false => simp [hm]
      | true =>
        cases ha : isMember root "args" with
        | error e => simp [hm, ha]
        | ok hasArgs =>
          cases hasArgs with
          | false => simp [hm, ha]
          | true =>
            cases hs : asString (getMember root "function") with
            | error e => simp [hm, ha, hs]
            | ok func_name =>
              cases hc : regContains reg func_name with
              | false => simp [hm, ha, hs, hc]
              | true =>
                cases hcall : (mapIndex reg func_name).1 (getMember root "args") with
                | ok result => simp [hm, ha, hs, hc, hcall, mapIndex_snd reg func_name hc]
                | error e => simp [hm, ha, hs, hc, hcall, mapIndex_snd reg func_name hc]

end RpcServer

namespace RpcConn

/-- An open connection hands `receive_data` to the receive loop. -/
theorem receive_data_open (c : Connection) (h : c.openFlag = true)
    (stream : List Nat) (sched : List RecvEv) (n : Nat) :
    receive_data c stream sched n = recvLoop c stream sched [] n := by
  simp [receive_data, h]

/-- An open connection hands `send_data` to the send loop. -/
theorem send_data_open (c : Connection) (h : c.openFlag = true)
    (data : List Nat) (sched : List SendEv) :
    send_data c data sched = sendLoop c data sched [] := by
  simp [send_data, h]

end RpcConn

open RpcConn RpcServer

/-- C1: evaluation of the code at the failing input.  The claim says
every input byte string — including non-object JSON payloads — yields
exactly one framed response and never raises past `dispatch`; but for the
valid-JSON non-object payload `42` the `root.isMember("function")` call
(rpc_server_stub.cpp line 204), which sits outside the try/catch block,
throws `Json::LogicError`, which escapes `process_json_request`:
the model returns `.error` (an escaping exception), not a response. -/
theorem c1_nonobject_payload_escapes (reg : Registry) :
    process_json_request reg (.ok (.num 42)) =
      .error "in Json::Value::find(begin, end): requires objectValue or nullValue" := rfl

/-- C9: once listening, dispatch never modifies the registry: for every
registry and every parse result — registered or unregistered function,
malformed or well-formed payload — the registry after
`process_json_request` equals the registry before. -/
theorem c9_registry_immutable_under_dispatch (reg : Registry)
    (parse : Except String Json) : registryAfter reg parse = reg :=
  process_json_core_registry reg parse

/-- C7: when the server is not running and `name` is already registered,
`register_function` is a no-op that does not raise: it returns the server
unchanged (the previously registered handler stays bound; the new handler
is discarded) and reports the warning rather than a fatal condition. -/
theorem c7_duplicate_registration_warns_keeps_first
    (s : RPCServer) (name : String) (func : RPCFunction)
    (hrun : s.running = false)
    (hdup : regContains s.function_registry name = true) :
    register_function s name func = .ok (s, true) := by
  simp [register_function, hrun, hdup]

/-- C7 witness: duplicate registration of `"g"` on the concrete server
`c7_server` keeps `c7_handler_old` and warns. -/
theorem c7_witness :
    c7_server.running = false ∧
    regContains c7_server.function_registry "g" = true ∧
    register_function c7_server "g" c7_handler_new = .ok (c7_server, true) :=
  ⟨rfl, rfl, c7_duplicate_registration_warns_keeps_first c7_server "g" c7_handler_new rfl rfl⟩

/-- C10: a `Connection` constructed from a negative descriptor reports
`is_open() == false`; `send_data` and `receive_data` on it fail
immediately with the closed-connection `ConnectionError`, touching
neither the transport (no schedule event consumed, no byte moved) nor
the state; `close_connection` and the destructor are no-ops that release
no handle. -/
theorem c10_negative_fd_connection (socket_fd : Int) (h : socket_fd < 0) :
    is_open (Connection.create socket_fd) = false
  ∧ (∀ (d : List Nat) (sch : List SendEv),
        send_data (Connection.create socket_fd) d sch =
          ⟨.connError "Connection is closed", Connection.create socket_fd, [], sch⟩)
  ∧ (∀ (n : Nat) (stream : List Nat) (sch : List RecvEv),
        receive_data (Connection.create socket_fd) stream sch n =
          ⟨.connError "Connection is closed", Connection.create socket_fd, stream, sch⟩)
  ∧ close_connection (Connection.create socket_fd) = (Connection.create socket_fd, false)
  ∧ destructor (Connection.create socket_fd) = (Connection.create socket_fd, false) := by
  have hopen : (Connection.create socket_fd).openFlag = false := by
    simp [Connection.create]
    omega
  refine ⟨?_, ?_, ?_, ?_, ?_⟩
  · simpa [is_open] using hopen
  · intro d sch; exact send_data_closed _ hopen d sch
  · intro n stream sch; exact receive_data_closed _ hopen stream sch n
  · exact close_connection_closed _ hopen
  · simp [destructor, hopen]

/-- C10 witness: the concrete descriptor `-1`. -/
theorem c10_witness :
    is_open (Connection.create (-1)) = false ∧
    send_data (Connection.create (-1)) [5] [.accept 1] =
      ⟨.connError "Connection is closed", Connection.create (-1), [], [.accept 1]⟩ ∧
    receive_data (Connection.create (-1)) [7] [.chunk 1] 1 =
      ⟨.connError "Connection is closed", Connection.create (-1), [7], [.chunk 1]⟩ ∧
    close_connection (Connection.create (-1)) = (Connection.create (-1), false) ∧
    destructor (Connection.create (-1)) = (Connection.create (-1), false) :=
  ⟨(c10_negative_fd_connection (-1) (by decide)).1,
   (c10_negative_fd_connection (-1) (by decide)).2.1 [5] [.accept 1],
   (c10_negative_fd_connection (-1) (by decide)).2.2.1 1 [7] [.chunk 1],
   (c10_negative_fd_connection (-1) (by decide)).2.2.2.1,
   (c10_negative_fd_connection (-1) (by decide)).2.2.2.2⟩

/-- C5: once `open` is false it never becomes true again under any
sequence of operations; while closed, `send_data` and `receive_data`
fail immediately with the closed-connection `ConnectionError` without
consuming a transport event and without changing the state;
`close_connection` on a closed connection is a no-op; and any operation
sequence releases the underlying handle at most once. -/
theorem c5_closed_invariant :
    (∀ (c : Connection) (ops : List Op), c.openFlag = false →
        (runOps c ops).1.openFlag = false)
  ∧ (∀ (c : Connection) (d : List Nat) (sch : List SendEv), c.openFlag = false →
        send_data c d sch = ⟨.connError "Connection is closed", c, [], sch⟩)
  ∧ (∀ (c : Connection) (stream : List Nat) (sch : List RecvEv) (n : Nat),
        c.openFlag = false →
        receive_data c stream sch n = ⟨.connError "Connection is closed", c, stream, sch⟩)
  ∧ (∀ c : Connection, c.openFlag = false → close_connection c = (c, false))
  ∧ (∀ (c : Connection) (ops : List Op), (runOps c ops).2 ≤ 1) := by
  refine ⟨?_, ?_, ?_, ?_, ?_⟩
  · intro c ops h
    rw [runOps_closed c h ops]
    exact h
  · intro c d sch h
    exact send_data_closed c h d sch
  · intro c stream sch n h
    exact receive_data_closed c h stream sch n
  · intro c h
    exact close_connection_closed c h
  · intro c ops
    exact runOps_release_le_one ops c

/-- C5 witness: a concrete closed connection and concrete operation
sequences. -/
theorem c5_witness :
    (runOps ⟨-1, false⟩ [.close, .send [1] [.accept 1], .close]).1.openFlag = false ∧
    send_data ⟨-1, false⟩ [1, 2] [.accept 2] =
      ⟨.connError "Connection is closed", ⟨-1, false⟩, [], [.accept 2]⟩ ∧
    receive_data ⟨-1, false⟩ [3] [.chunk 1] 1 =
      ⟨.connError "Connection is closed", ⟨-1, false⟩, [3], [.chunk 1]⟩ ∧
    close_connection ⟨-1, false⟩ = (⟨-1, false⟩, false) ∧
    (runOps ⟨7, true⟩ [.close, .close, .close]).2 ≤ 1 :=
  ⟨c5_closed_invariant.1 ⟨-1, false⟩ [.close, .send [1] [.accept 1], .close] rfl,
   c5_closed_invariant.2.1 ⟨-1, false⟩ [1, 2] [.accept 2] rfl,
   c5_closed_invariant.2.2.1 ⟨-1, false⟩ [3] [.chunk 1] 1 rfl,
   c5_closed_invariant.2.2.2.1 ⟨-1, false⟩ rfl,
   c5_closed_invariant.2.2.2.2 ⟨7, true⟩ [.close, .close, .close]⟩

/-- C3: on an open connection, for every transport schedule in which
each call either moves at least one byte or is a retried EINTR
interruption (and enough calls are scheduled), `send_data` hands exactly
the whole buffer to the transport in order and returns success with the
connection unchanged, and `receive_data n` returns exactly the next `n`
bytes of the incoming stream, consuming them from the stream. -/
theorem c3_partial_io_transparent :
    (∀ (c : Connection) (data : List Nat) (sched : List SendEv),
        c.openFlag = true → goodSend sched = true →
        data.length ≤ countAccepts sched →
        ∃ rest, send_data c data sched = ⟨.ok (), c, data, rest⟩)
  ∧ (∀ (c : Connection) (stream : List Nat) (sched : List RecvEv) (n : Nat),
        c.openFlag = true → goodRecv sched = true →
        n ≤ countChunks sched → n ≤ stream.length →
        ∃ rest, receive_data c stream sched n =
          ⟨.ok (stream.take n), c, stream.drop n, rest⟩) := by
  constructor
  · intro c data sched hopen hgood hlen
    obtain ⟨rest, hr⟩ := sendLoop_ok c sched data [] hgood hlen
    refine ⟨rest, ?_⟩
    rw [send_data_open c hopen]
    simpa using hr
  · intro c stream sched n hopen hgood hcnt hstream
    obtain ⟨rest, hr⟩ := recvLoop_ok c sched stream [] n hgood hcnt hstream
    refine ⟨rest, ?_⟩
    rw [receive_data_open c hopen]
    simpa using hr

/-- C3 witness: a schedule with EINTR interruptions and partial sends
transmits the whole buffer, and a transport delivering one byte per call
assembles a 4-byte length prefix and payload bytes correctly. -/
theorem c3_witness :
    (send_data ⟨5, true⟩ [10, 20, 30] [.accept 1, .eintr, .accept 1, .accept 1]).result
      = .ok () ∧
    (send_data ⟨5, true⟩ [10, 20, 30] [.accept 1, .eintr, .accept 1, .accept 1]).trace
      = [10, 20, 30] ∧
    (send_data ⟨5, true⟩ [10, 20, 30] [.accept 1, .eintr, .accept 1, .accept 1]).conn
      = ⟨5, true⟩ ∧
    (receive_data ⟨5, true⟩ [0, 0, 0, 2, 7, 8] (List.replicate 6 (.chunk 1)) 4).result
      = .ok [0, 0, 0, 2] ∧
    (receive_data ⟨5, true⟩ [0, 0, 0, 2, 7, 8] (List.replicate 6 (.chunk 1)) 4).stream
      = [7, 8] := by
  obtain ⟨r1, hr1⟩ := c3_partial_io_transparent.1 ⟨5, true⟩ [10, 20, 30]
    [.accept 1, .eintr, .accept 1, .accept 1] rfl (by decide) (by decide)
  obtain ⟨r2, hr2⟩ := c3_partial_io_transparent.2 ⟨5, true⟩ [0, 0, 0, 2, 7, 8]
    (List.replicate 6 (.chunk 1)) 4 rfl (by decide) (by decide) (by decide)
  exact ⟨by rw [hr1], by rw [hr1], by rw [hr1], by rw [hr2]; rfl, by rw [hr2]; rfl⟩

/-- C4 counterexample: at the concrete input where the peer closes the
stream immediately (an open connection, one requested byte, an
end-of-stream event), the code produces the message
"Connection closed by peer" (rpc_connection.cpp line 113), which is not
the claimed "connection closed by peer". -/
theorem c4_counterexample_message_case :
    receive_data ⟨0, true⟩ [] [.eof] 1 =
      ⟨.connError "Connection closed by peer", ⟨0, false⟩, [], []⟩ ∧
    "Connection closed by peer" ≠ "connection closed by peer" :=
  ⟨by decide, by decide⟩

/-- C4 (amended): whenever a read on an open connection returns zero
bytes — after any prefix of one-byte deliveries and EINTR retries that
has not yet satisfied the request — `receive_data` marks the connection
closed and fails with `ConnectionError("Connection closed by peer")`, a
message distinct from the `"Receive error: <strerror>"` produced for
every other I/O error. -/
theorem c4_peer_close_amended :
    (∀ (c : Connection) (stream : List Nat) (pre rest : List RecvEv) (n : Nat),
        c.openFlag = true →
        pre.all (fun ev => ev == RecvEv.chunk 1 || ev == RecvEv.eintr) = true →
        countChunks pre < n → countChunks pre ≤ stream.length →
        receive_data c stream (pre ++ .eof :: rest) n =
          ⟨.connError "Connection closed by peer", { c with openFlag := false },
           stream.drop (countChunks pre), rest⟩)
  ∧ (∀ (c : Connection) (stream : List Nat) (rest : List RecvEv) (e : String) (n : Nat),
        c.openFlag = true → 0 < n →
        receive_data c stream (.err e :: rest) n =
          ⟨.connError ("Receive error: " ++ e), { c with openFlag := false },
           stream, rest⟩)
  ∧ (∀ e : String, "Receive error: " ++ e ≠ "Connection closed by peer") := by
  refine ⟨?_, ?_, ?_⟩
  · intro c stream pre rest n hopen hall hlt hstream
    rw [receive_data_open c hopen]
    exact recvLoop_eof c pre rest stream [] n hall hlt hstream
  · intro c stream rest e n hopen hn
    rw [receive_data_open c hopen]
    rw [recvLoop.eq_def]
    have hne : ¬ n = 0 := by omega
    simp [hne]
  · intro e h
    have h2 : ("Receive error: " ++ e).data = "Connection closed by peer".data := by
      rw [h]
    rw [String.data_append] at h2
    simp at h2

/-- C4 witness: a peer close after one delivered byte of a three-byte
request, a concrete errno failure, and the distinctness of the two
messages at a concrete errno string. -/
theorem c4_witness :
    receive_data ⟨3, true⟩ [9, 9] [.chunk 1, .eof] 3 =
      ⟨.connError "Connection closed by peer", ⟨3, false⟩, [9], []⟩ ∧
    receive_data ⟨3, true⟩ [1] [.err "Broken pipe"] 1 =
      ⟨.connError ("Receive error: " ++ "Broken pipe"), ⟨3, false⟩, [1], []⟩ ∧
    "Receive error: " ++ "Broken pipe" ≠ "Connection closed by peer" :=
  ⟨by simpa [countChunks, isChunk] using
      c4_peer_close_amended.1 ⟨3, true⟩ [9, 9] [.chunk 1] [] 3 rfl (by decide)
        (by decide) (by decide),
   c4_peer_close_amended.2.1 ⟨3, true⟩ [1] [] "Broken pipe" 1 rfl (by decide),
   c4_peer_close_amended.2.2 "Broken pipe"⟩

/-- C2: dispatch case analysis, in order, with the exact messages the
code produces: a failed parse yields `Error("Invalid JSON: <diagnostic>")`;
a parsed object missing `"function"` or `"args"` yields
`Error("Missing 'function' or 'args' field")`; an object with both fields
whose function name is not in the registry yields
`Error("Function not found")`; a registered handler that fails yields
`Error("Execution error: <message>")`; a successful handler return is
wrapped as a success response carrying the value. -/
theorem c2_dispatch_case_analysis :
    (∀ (reg : Registry) (errs : String),
        process_json_core reg (.error errs) =
          .ok (errorResponse ("Invalid JSON: " ++ errs), reg))
  ∧ (∀ (reg : Registry) (members : List (String × Json)),
        (members.any (fun kv => kv.1 == "function") = false ∨
         members.any (fun kv => kv.1 == "args") = false) →
        process_json_core reg (.ok (.obj members)) =
          .ok (errorResponse "Missing 'function' or 'args' field", reg))
  ∧ (∀ (reg : Registry) (members : List (String × Json)) (name : String),
        members.any (fun kv => kv.1 == "function") = true →
        members.any (fun kv => kv.1 == "args") = true →
        getMember (.obj members) "function" = .str name →
        regContains reg name = false →
        process_json_core reg (.ok (.obj members)) =
          .ok (errorResponse "Function not found", reg))
  ∧ (∀ (reg : Registry) (members : List (String × Json)) (name : String)
        (p : String × RPCFunction) (emsg : String),
        members.any (fun kv => kv.1 == "function") = true →
        members.any (fun kv => kv.1 == "args") = true →
        getMember (.obj members) "function" = .str name →
        reg.find? (fun kv => kv.1 == name) = some p →
        p.2 (getMember (.obj members) "args") = .error emsg →
        process_json_core reg (.ok (.obj members)) =
          .ok (errorResponse ("Execution error: " ++ emsg), reg))
  ∧ (∀ (reg : Registry) (members : List (String × Json)) (name : String)
        (p : String × RPCFunction) (result : Json),
        members.any (fun kv => kv.1 == "function") = true →
        members.any (fun kv => kv.1 == "args") = true →
        getMember (.obj members) "function" = .str name →
        reg.find? (fun kv => kv.1 == name) = some p →
        p.2 (getMember (.obj members) "args") = .ok result →
        process_json_core reg (.ok (.obj members)) =
          .ok (successResponse result, reg)) := by
  refine ⟨?_, ?_, ?_, ?_, ?_⟩
  · intro reg errs
    rfl
  · intro reg members h
    cases hf : members.any (fun kv => kv.1 == "function") with
    | false => simp [process_json_core, isMember, hf]
    | true =>
      rcases h with h | h
      · rw [hf] at h
        exact absurd h (by simp)
      · simp [process_json_core, isMember, hf, h]
  · intro reg members name h1 h2 h3 h4
    simp [process_json_core, isMember, h1, h2, h3, asString, h4]
  · intro reg members name p emsg h1 h2 h3 h4 h5
    have hcont : regContains reg name = true := by simp [regContains, h4]
    have hmap : mapIndex reg name = (p.2, reg) := by simp [mapIndex, h4]
    simp [process_json_core, isMember, h1, h2, h3, asString, hcont, hmap, h5]
  · intro reg members name p result h1 h2 h3 h4 h5
    have hcont : regContains reg name = true := by simp [regContains, h4]
    have hmap : mapIndex reg name = (p.2, reg) := by simp [mapIndex, h4]
    simp [process_json_core, isMember, h1, h2, h3, asString, hcont, hmap, h5]

/-- C2 witness: one concrete request per case — a parse failure, a
missing-field object, an unregistered name, a failing `divide`-style
handler, and a successful `echo`-style handler. -/
theorem c2_witness :
    process_json_core [] (.error "unexpected token") =
      .ok (errorResponse ("Invalid JSON: " ++ "unexpected token"), []) ∧
    process_json_core [] (.ok (.obj [("args", .arr [])])) =
      .ok (errorResponse "Missing 'function' or 'args' field", []) ∧
    process_json_core [] (.ok (.obj [("function", .str "missing"), ("args", .arr [])])) =
      .ok (errorResponse "Function not found", []) ∧
    process_json_core [("divide", failing_handler)]
        (.ok (.obj [("function", .str "divide"), ("args", .arr [.num 1, .num 0])])) =
      .ok (errorResponse ("Execution error: " ++ "Division by zero"),
           [("divide", failing_handler)]) ∧
    process_json_core [("echo", echo_handler)]
        (.ok (.obj [("function", .str "echo"), ("args", .arr [.num 7])])) =
      .ok (successResponse (.arr [.num 7]), [("echo", echo_handler)]) :=
  ⟨c2_dispatch_case_analysis.1 [] "unexpected token",
   c2_dispatch_case_analysis.2.1 [] [("args", .arr [])] (Or.inl rfl),
   c2_dispatch_case_analysis.2.2.1 []
     [("function", .str "missing"), ("args", .arr [])] "missing" rfl rfl rfl rfl,
   c2_dispatch_case_analysis.2.2.2.1 [("divide", failing_handler)]
     [("function", .str "divide"), ("args", .arr [.num 1, .num 0])] "divide"
     ("divide", failing_handler) "Division by zero" rfl rfl rfl rfl rfl,
   c2_dispatch_case_analysis.2.2.2.2 [("echo", echo_handler)]
     [("function", .str "echo"), ("args", .arr [.num 7])] "echo"
     ("echo", echo_handler) (.arr [.num 7]) rfl rfl rfl rfl rfl⟩

/-- C6 counterexample: with the server not yet listening and `"f"`
already registered to `c6_handler_one`, registering `c6_handler_two`
under `"f"` returns without error but leaves the server unchanged, and a
subsequent dispatch of `"f"` still runs `c6_handler_one` (producing 1),
not the newly supplied `c6_handler_two` (which would produce 2) — so a
before-listening call does not always make its handler visible to
subsequent dispatches, contrary to the claim. -/
theorem c6_counterexample_duplicate_visibility :
    c6_server.running = false ∧
    register_function c6_server "f" c6_handler_two = .ok (c6_server, true) ∧
    process_json_core c6_server.function_registry (.ok c6_request) =
      .ok (successResponse (.num 1), c6_server.function_registry) ∧
    c6_handler_two (getMember c6_request "args") = .ok (.num 2) ∧
    successResponse (.num 1) ≠ successResponse (.num 2) := by
  refine ⟨rfl, rfl, rfl, rfl, ?_⟩
  simp [successResponse]

/-- C6 (amended): `register_function` fails with the
server-already-running error for every call made while the server is
listening; every call made before listening whose name is not already
registered succeeds, and the handler it registers is the one every
subsequent dispatch of that name invokes (a duplicate name instead
leaves the previously registered handler active). -/
theorem c6_registration_amended :
    (∀ (s : RPCServer) (name : String) (func : RPCFunction),
        s.running = true →
        register_function s name func =
          .error "Cannot register functions while server is running")
  ∧ (∀ (s : RPCServer) (name : String) (func : RPCFunction),
        s.running = false → regContains s.function_registry name = false →
        register_function s name func =
          .ok ({ s with function_registry := s.function_registry ++ [(name, func)] }, false)
      ∧ ∀ (a : Json),
          process_json_core (s.function_registry ++ [(name, func)])
              (.ok (.obj [("function", .str name), ("args", a)])) =
            .ok (handlerResponse (func a), s.function_registry ++ [(name, func)])) := by
  constructor
  · intro s name func hrun
    simp [register_function, hrun]
  · intro s name func hrun hfresh
    constructor
    · simp [register_function, hrun, hfresh]
    · intro a
      have hfind : (s.function_registry ++ [(name, func)]).find?
          (fun kv => kv.1 == name) = some (name, func) := by
        rw [List.find?_append]
        unfold regContains at hfresh
        cases hf : s.function_registry.find? (fun kv => kv.1 == name) with
        | some kv => rw [hf] at hfresh; simp at hfresh
        | none => simp [List.find?]
      have hcont : regContains (s.function_registry ++ [(name, func)]) name = true := by
        simp [regContains, hfind]
      have hmap : mapIndex (s.function_registry ++ [(name, func)]) name =
          (func, s.function_registry ++ [(name, func)]) := by
        simp [mapIndex, hfind]
      have hmem1 : isMember (.obj [("function", .str name), ("args", a)]) "function" =
          .ok true := rfl
      have hmem2 : isMember (.obj [("function", .str name), ("args", a)]) "args" =
          .ok true := rfl
      have hget1 : getMember (.obj [("function", .str name), ("args", a)]) "function" =
          .str name := rfl
      have hget2 : getMember (.obj [("function", .str name), ("args", a)]) "args" =
          a := rfl
      cases hcall : func a with
      | ok r =>
        simp [process_json_core, handlerResponse, hmem1, hmem2, hget1, hget2,
          asString, hcont, hmap, hcall]
      | error e =>
        simp [process_json_core, handlerResponse, hmem1, hmem2, hget1, hget2,
          asString, hcont, hmap, hcall]

/-- C6 witness: registering on a running server fails; registering the
fresh name `"h"` on the not-yet-listening `c6_server` succeeds and a
dispatch of `"h"` runs the newly registered handler. -/
theorem c6_witness :
    register_function { port := 1, listen_fd := 3, running := true, function_registry := [] } "f" c6_handler_one =
      .error "Cannot register functions while server is running" ∧
    register_function c6_server "h" c6_handler_two =
      .ok ({ c6_server with function_registry := c6_server.function_registry ++ [("h", c6_handler_two)] }, false) ∧
    process_json_core (c6_server.function_registry ++ [("h", c6_handler_two)])
        (.ok (.obj [("function", .str "h"), ("args", .arr [])])) =
      .ok (successResponse (.num 2),
           c6_server.function_registry ++ [("h", c6_handler_two)]) := by
  refine ⟨c6_registration_amended.1 _ "f" c6_handler_one rfl,
    (c6_registration_amended.2 c6_server "h" c6_handler_two rfl rfl).1, ?_⟩
  have h := (c6_registration_amended.2 c6_server "h" c6_handler_two rfl rfl).2 (.arr [])
  simpa [c6_handler_two, handlerResponse] using h

/-- Big-endian 4-byte encode/decode round-trip for 32-bit values. -/
theorem beDecode_be32 (n : Nat) (h : n < 2 ^ 32) : beDecode (be32 n) = n := by
  simp [be32, beDecode, List.foldl]
  omega

/-- C8: the framing layer round-trips.  Every unsigned 32-bit length `n`
encoded as a 4-byte big-endian prefix decodes back to `n`, and decoding
an encoded framed message `be32 B.length ++ B` — reading the prefix with
`receive_length_prefix`, then that many bytes with `receive_data` —
recovers exactly the payload `B`, whatever its content, under any
progressing transport schedules. -/
theorem c8_framing_roundtrip :
    (∀ n : Nat, n < 2 ^ 32 → beDecode (be32 n) = n)
  ∧ (∀ (c : Connection) (B : List Nat) (sch1 sch2 : List RecvEv),
        c.openFlag = true → B.length < 2 ^ 32 →
        goodRecv sch1 = true → 4 ≤ countChunks sch1 →
        goodRecv sch2 = true → B.length ≤ countChunks sch2 →
        (∃ r1, receive_length_prefix c (be32 B.length ++ B) sch1 =
            ⟨.ok B.length, c, B, r1⟩) ∧
        (∃ r2, receive_data c B sch2 B.length = ⟨.ok B, c, [], r2⟩)) := by
  refine ⟨beDecode_be32, ?_⟩
  intro c B sch1 sch2 hopen hB hg1 hc1 hg2 hc2
  constructor
  · have hlen4 : (be32 B.length).length = 4 := rfl
    have hstream : 4 ≤ (be32 B.length ++ B).length := by
      rw [List.length_append, hlen4]
      omega
    obtain ⟨r1, hr1⟩ := recvLoop_ok c sch1 (be32 B.length ++ B) [] 4 hg1 hc1 hstream
    have htake : (be32 B.length ++ B).take 4 = be32 B.length := by
      rw [← hlen4]
      exact List.take_left _ _
    have hdrop : (be32 B.length ++ B).drop 4 = B := by
      rw [← hlen4]
      exact List.drop_left _ _
    refine ⟨r1, ?_⟩
    simp only [ receive_length_prefix]
    rw [receive_data_open c hopen, hr1]
    simp only [List.nil_append, htake, hdrop, beDecode_be32 B.length hB]
  · obtain ⟨r2, hr2⟩ := recvLoop_ok c sch2 B [] B.length hg2 hc2 le_rfl
    refine ⟨r2, ?_⟩
    rw [receive_data_open c hopen, hr2]
    simp

/-- C8 witness: the length 300 round-trips through the 4-byte prefix,
and the concrete frame for payload `[9, 10]` is decoded back to the
payload by prefix-read followed by payload-read, on a transport
delivering one byte per call. -/
theorem c8_witness :
    beDecode (be32 300) = 300 ∧
    ( receive_length_prefix ⟨4, true⟩ (be32 2 ++ [9, 10])
        (List.replicate 4 (.chunk 1))).result = .ok 2 ∧
    ( receive_length_prefix ⟨4, true⟩ (be32 2 ++ [9, 10])
        (List.replicate 4 (.chunk 1))).stream = [9, 10] ∧
    (receive_data ⟨4, true⟩ [9, 10] (List.replicate 2 (.chunk 1)) 2).result
      = .ok [9, 10] := by
  obtain ⟨h1, h2⟩ := c8_framing_roundtrip.2 ⟨4, true⟩ [9, 10]
    (List.replicate 4 (.chunk 1)) (List.replicate 2 (.chunk 1)) rfl
    (by norm_num) (by decide) (by decide) (by decide) (by decide)
  obtain ⟨r1, hr1⟩ := h1
  obtain ⟨r2, hr2⟩ := h2
  norm_num at hr1 hr2
  refine ⟨c8_framing_roundtrip.1 300 (by norm_num), ?_, ?_, ?_⟩
  · rw [hr1]
  · rw [hr1]
  · rw [hr2]
